import Mathlib

/-!
Shallow embedding of `src/providers/sh/commands/certs.js` from the now-cli
repository: the `now certs` CLI subcommand dispatcher.

The dispatcher `run` is a straight-line command interpreter over an external
API client (`NowCerts`).  We embed it as a pure function from the parsed
argument vector (`Argv`) and an environment (`Env`, supplying the responses
the external collaborators would produce: the certificate list returned by
`certs.ls()`, the results of `certs.create`/`certs.put`, the line typed on
stdin for a confirmation prompt, and file contents for `readX509File`) to a
`RunResult` recording the observable effects: the API calls issued in order,
the file paths read, the error messages printed, the table rows printed by
`ls`, the exit code, whether `certs.close()` was reached, and whether the
help text was shown.

Modelling conventions:
* JavaScript truthiness of the string-typed `mri` flags (`--crt`, `--key`,
  `--ca`) and of `subcommand = argv._[0]` is `strTruthy`: an absent value
  (`undefined`) and the empty string are falsy.
* `return exit(code)` in a branch of `run` is modelled as returning a
  `RunResult` with that exit code and `closed := false`, since the early
  `return` skips the final `certs.close()` on line 326.  Falling off the
  end of the dispatch reaches `certs.close()` (`closed := true`); a path
  on which no `exit()` is called terminates with the process default
  exit code 0.
* `exit` itself lives outside `src/`; per the spec it terminates the
  command with the given code, and in `main` the help/no-subcommand path
  exits 0 before `run` is invoked.
* `list.sort((a, b) => a.cn.localeCompare(b.cn))` is modelled as a stable
  sort of the list by `cn` under Lean's lexicographic order on `String`
  (`List.insertionSort`); JavaScript's `Array.prototype.sort` is a stable
  sort with respect to the comparator.
* `d.toString().trim().toLowerCase() === 'y'` is `confirmAnswer`, with
  `jsTrim`/`jsToLower` modelling the JavaScript string operations on the
  underlying character list.
-/

/-- Certificate record as returned by the remote API (spec §3). -/
structure Cert where
  uid : String
  cn : String
  created : Nat
  expiration : Nat
  autoRenew : Bool
deriving DecidableEq, Repr

/-- One call made to the remote `NowCerts` API client, with its arguments. -/
inductive ApiCall where
  | ls
  | create (cn : String)
  | put (cn crt key ca : String)
  | renew (cn : String)
  | delete (cn : String)
deriving DecidableEq, Repr

/-- One `console.error(error(...))` site in `certs.js`, one constructor per
message. -/
inductive ErrMsg where
  | invalidArgsLs
  | invalidArgsCreate
  | createMissingFlags
  | invalidArgsRenew
  | replaceMissingFlags
  | invalidArgsRm
  | notFound (idOrCn : Option String)
  | userAbort
  | invalidSubcommand
deriving DecidableEq, Repr

/-- Parsed command line after `main`'s `argv._ = argv._.slice(1)`:
`pos` models `argv._` (so `pos[0]` is the subcommand and `pos.tail` the
positional arguments `args` of `run`), and `crt`/`key`/`ca` the string
flags (`none` models `undefined`). -/
structure Argv where
  pos : List String
  crt : Option String
  key : Option String
  ca : Option String
  help : Bool
deriving DecidableEq, Repr

/-- Responses of the external collaborators consumed during one invocation:
the list `certs.ls()` resolves to, the results of `certs.create` and
`certs.put` (`none` models a falsy/undefined result), the single stdin line
consumed by `readConfirmation`, and the file system seen by
`readX509File`. -/
structure Env where
  lsResult : List Cert
  createResult : Option Cert
  putResult : Option Cert
  confirmInput : String
  fileContents : String → String

/-- Observable outcome of one invocation of the dispatcher. -/
structure RunResult where
  calls : List ApiCall := []
  reads : List String := []
  errs : List ErrMsg := []
  rows : List Cert := []
  exitCode : Nat := 0
  closed : Bool := false
  helpShown : Bool := false
deriving DecidableEq, Repr

/-- JavaScript truthiness of an optional string value: `undefined` and the
empty string are falsy. -/
def strTruthy (o : Option String) : Bool :=
  match o with
  | none => false
  | some s => s != ""

/-- Model of JavaScript `String.prototype.trim`: drop whitespace from both
ends of the string. -/
def jsTrim (s : String) : String :=
  ⟨((s.data.dropWhile Char.isWhitespace).reverse.dropWhile
      Char.isWhitespace).reverse⟩

/-- Model of JavaScript `String.prototype.toLowerCase`, covering the ASCII
range relevant to `"y"`/`"Y"` answers. -/
def jsToLower (s : String) : String :=
  ⟨s.data.map Char.toLower⟩

/-- Embedding of `d.toString().trim().toLowerCase() === 'y'` in
`readConfirmation` (certs.js line 352). -/
def confirmAnswer (d : String) : Bool :=
  jsToLower (jsTrim d) == "y"

/-- Embedding of `getCertIdCn` (certs.js lines 362-378): take the first
element of the fetched list whose `uid` or `cn` equals the argument;
`filter(...)[0]` is `find?`.  The argument is an `Option` because `replace`
may pass `args[0]` with `args` empty (JavaScript `undefined`); comparing a
string field with `undefined` via `===` is `false`. -/
def getCertIdCn (list : List Cert) (idOrCn : Option String) : Option Cert :=
  list.find? fun cert =>
    match idOrCn with
    | some s => cert.uid == s || cert.cn == s
    | none => false

/-- Model of `list.sort((a, b) => a.cn.localeCompare(b.cn))`: stable sort
ascending by `cn` under lexicographic string order. -/
def sortCerts (list : List Cert) : List Cert :=
  List.insertionSort (fun a b => a.cn ≤ b.cn) list

/-- Branch `subcommand === 'ls' || subcommand === 'list'` of `run`
(certs.js lines 126-181).  `rows` is the sequence of certificates printed
by the `forEach` (only printed when the list is non-empty). -/
def lsBranch (args : List String) (env : Env) : RunResult :=
  if args.length ≠ 0 then
    { errs := [ErrMsg.invalidArgsLs], exitCode := 1 }
  else
    { calls := [ApiCall.ls],
      rows := if env.lsResult.length > 0 then sortCerts env.lsResult else [],
      exitCode := 0, closed := true }

/-- Branch `subcommand === 'create'` of `run` (certs.js lines 182-223). -/
def createBranch (a : Argv) (args : List String) (env : Env) : RunResult :=
  if args.length ≠ 1 then
    { errs := [ErrMsg.invalidArgsCreate], exitCode := 1 }
  else
    let cn := args.headD ""
    if strTruthy a.crt || strTruthy a.key || strTruthy a.ca then
      if !strTruthy a.crt || !strTruthy a.key then
        { errs := [ErrMsg.createMissingFlags], exitCode := 1 }
      else
        let crtPath := a.crt.getD ""
        let keyPath := a.key.getD ""
        let crt := env.fileContents crtPath
        let key := env.fileContents keyPath
        let ca := if strTruthy a.ca then env.fileContents (a.ca.getD "") else ""
        let reads := [crtPath, keyPath] ++
          (if strTruthy a.ca then [a.ca.getD ""] else [])
        match env.putResult with
        | none =>
          { calls := [ApiCall.put cn crt key ca], reads := reads,
            exitCode := 1 }
        | some _ =>
          { calls := [ApiCall.put cn crt key ca], reads := reads,
            exitCode := 0, closed := true }
    else
      match env.createResult with
      | none => { calls := [ApiCall.create cn], exitCode := 1 }
      | some _ => { calls := [ApiCall.create cn], exitCode := 0, closed := true }

/-- Branch `subcommand === 'renew'` of `run` (certs.js lines 224-254). -/
def renewBranch (args : List String) (env : Env) : RunResult :=
  if args.length ≠ 1 then
    { errs := [ErrMsg.invalidArgsRenew], exitCode := 1 }
  else
    match getCertIdCn env.lsResult args.head? with
    | none =>
      { calls := [ApiCall.ls], errs := [ErrMsg.notFound args.head?],
        exitCode := 1 }
    | some cert =>
      if confirmAnswer env.confirmInput then
        { calls := [ApiCall.ls, ApiCall.renew cert.cn],
          exitCode := 0, closed := true }
      else
        { calls := [ApiCall.ls], errs := [ErrMsg.userAbort], exitCode := 0 }

/-- Branch `subcommand === 'replace'` of `run` (certs.js lines 255-288).
There is no arity check: the flag check comes first, then the files are
read, then the certificate is resolved from `args[0]`. -/
def replaceBranch (a : Argv) (args : List String) (env : Env) : RunResult :=
  if !strTruthy a.crt || !strTruthy a.key then
    { errs := [ErrMsg.replaceMissingFlags], exitCode := 1 }
  else
    let crtPath := a.crt.getD ""
    let keyPath := a.key.getD ""
    let crt := env.fileContents crtPath
    let key := env.fileContents keyPath
    let ca := if strTruthy a.ca then env.fileContents (a.ca.getD "") else ""
    let reads := [crtPath, keyPath] ++
      (if strTruthy a.ca then [a.ca.getD ""] else [])
    match getCertIdCn env.lsResult args.head? with
    | none =>
      { calls := [ApiCall.ls], reads := reads,
        errs := [ErrMsg.notFound args.head?], exitCode := 1 }
    | some cert =>
      if confirmAnswer env.confirmInput then
        { calls := [ApiCall.ls, ApiCall.put cert.cn crt key ca],
          reads := reads, exitCode := 0, closed := true }
      else
        { calls := [ApiCall.ls], reads := reads,
          errs := [ErrMsg.userAbort], exitCode := 0 }

/-- Branch `subcommand === 'rm' || subcommand === 'remove'` of `run`
(certs.js lines 289-318). -/
def rmBranch (args : List String) (env : Env) : RunResult :=
  if args.length ≠ 1 then
    { errs := [ErrMsg.invalidArgsRm], exitCode := 1 }
  else
    match getCertIdCn env.lsResult args.head? with
    | none =>
      { calls := [ApiCall.ls], errs := [ErrMsg.notFound args.head?],
        exitCode := 1 }
    | some cert =>
      if confirmAnswer env.confirmInput then
        { calls := [ApiCall.ls, ApiCall.delete cert.cn],
          exitCode := 0, closed := true }
      else
        { calls := [ApiCall.ls], errs := [ErrMsg.userAbort], exitCode := 0 }

/-- Final `else` of the dispatch (certs.js lines 319-325): error, help,
`exit(1)` without `return`, so execution falls through to
`certs.close()`. -/
def unknownBranch : RunResult :=
  { errs := [ErrMsg.invalidSubcommand], exitCode := 1,
    closed := true, helpShown := true }

/-- Embedding of `run` (certs.js lines 121-327): dispatch on
`subcommand = argv._[0]` with `args = argv._.slice(1)`.  Every branch ends
either in `return exit(code)` (modelled with `closed := false`) or falls
through to the final `return certs.close()` (`closed := true`). -/
def run (a : Argv) (env : Env) : RunResult :=
  let subcommand := a.pos.head?
  let args := a.pos.tail
  if subcommand = some "ls" ∨ subcommand = some "list" then
    lsBranch args env
  else if subcommand = some "create" then
    createBranch a args env
  else if subcommand = some "renew" then
    renewBranch args env
  else if subcommand = some "replace" then
    replaceBranch a args env
  else if subcommand = some "rm" ∨ subcommand = some "remove" then
    rmBranch args env
  else
    unknownBranch

/-- Embedding of `main` (certs.js lines 73-103): `if (argv.help ||
!subcommand) { help(); await exit(0) }` before `run` is invoked.  `exit` is
not part of `src/`; modelled from the spec: `exit(code)` terminates the
command with that exit code, so the help/no-subcommand path ends with exit
code 0 and `run` is never reached. -/
def mainRun (a : Argv) (env : Env) : RunResult :=
  if a.help || !strTruthy a.pos.head? then
    { exitCode := 0, helpShown := true }
  else
    run a env

/-- Argument vector for `now certs ls`. -/
def lsArgv : Argv :=
  { pos := ["ls"], crt := none, key := none, ca := none, help := false }

/-- Argument vector for `now certs create <cn>` without certificate flags. -/
def createArgv (cn : String) : Argv :=
  { pos := ["create", cn], crt := none, key := none, ca := none, help := false }

/-- Argument vector for `now certs renew <idOrCn>`. -/
def renewArgv (idOrCn : String) : Argv :=
  { pos := ["renew", idOrCn], crt := none, key := none, ca := none,
    help := false }

/-- Argument vector for
`now certs replace --crt <crtPath> --key <keyPath> <idOrCn>`. -/
def replaceArgv (idOrCn crtPath keyPath : String) : Argv :=
  { pos := ["replace", idOrCn], crt := some crtPath, key := some keyPath,
    ca := none, help := false }

/-- Argument vector for `now certs rm <idOrCn>`. -/
def rmArgv (idOrCn : String) : Argv :=
  { pos := ["rm", idOrCn], crt := none, key := none, ca := none,
    help := false }

/-- Sample certificate used to exercise the dispatcher on concrete
inputs. -/
def sampleCert : Cert :=
  { uid := "cert_W8Qrd3sIgNAbRB9WdBpX7dAH", cn := "a.com",
    created := 1500000000000, expiration := 1510000000000,
    autoRenew := true }

/-- Concrete environment used to exercise the dispatcher: one certificate,
successful API results, stdin line `"no"`. -/
def sampleEnv : Env :=
  { lsResult := [sampleCert], createResult := some sampleCert,
    putResult := some sampleCert, confirmInput := "no",
    fileContents := fun _ => "PEM" }

/-! ### Dispatch lemmas reducing `run` to its branches -/

theorem run_lsArgv (env : Env) : run lsArgv env = lsBranch [] env := rfl

theorem run_ls_pos (args : List String) (env : Env) :
    run { pos := ("ls" :: args), crt := none, key := none, ca := none,
          help := false } env = lsBranch args env := rfl

theorem run_createArgv (cn : String) (env : Env) :
    run (createArgv cn) env = createBranch (createArgv cn) [cn] env := rfl

theorem run_create_pos (args : List String) (crt key ca : Option String)
    (env : Env) :
    run { pos := ("create" :: args), crt := crt, key := key, ca := ca,
          help := false } env =
      createBranch { pos := ("create" :: args), crt := crt, key := key,
                     ca := ca, help := false } args env := rfl

theorem run_renewArgv (s : String) (env : Env) :
    run (renewArgv s) env = renewBranch [s] env := rfl

theorem run_replaceArgv (s cp kp : String) (env : Env) :
    run (replaceArgv s cp kp) env =
      replaceBranch (replaceArgv s cp kp) [s] env := rfl

theorem run_replace_pos (args : List String) (crt key ca : Option String)
    (env : Env) :
    run { pos := ("replace" :: args), crt := crt, key := key, ca := ca,
          help := false } env =
      replaceBranch { pos := ("replace" :: args), crt := crt, key := key,
                      ca := ca, help := false } args env := rfl

theorem run_rmArgv (s : String) (env : Env) :
    run (rmArgv s) env = rmBranch [s] env := rfl

/-! ### Resolution and confirmation lemmas for the mutating branches -/

theorem renewBranch_found_yes (env : Env) (s : String) (c : Cert)
    (h : getCertIdCn env.lsResult (some s) = some c)
    (hy : confirmAnswer env.confirmInput = true) :
    renewBranch [s] env =
      { calls := [ApiCall.ls, ApiCall.renew c.cn], exitCode := 0,
        closed := true } := by
  simp [renewBranch, h, hy]

theorem renewBranch_found_no (env : Env) (s : String) (c : Cert)
    (h : getCertIdCn env.lsResult (some s) = some c)
    (hn : confirmAnswer env.confirmInput = false) :
    renewBranch [s] env =
      { calls := [ApiCall.ls], errs := [ErrMsg.userAbort], exitCode := 0 } := by
  simp [renewBranch, h, hn]

theorem renewBranch_not_found (env : Env) (s : String)
    (h : getCertIdCn env.lsResult (some s) = none) :
    renewBranch [s] env =
      { calls := [ApiCall.ls], errs := [ErrMsg.notFound (some s)],
        exitCode := 1 } := by
  simp [renewBranch, h]

theorem rmBranch_found_yes (env : Env) (s : String) (c : Cert)
    (h : getCertIdCn env.lsResult (some s) = some c)
    (hy : confirmAnswer env.confirmInput = true) :
    rmBranch [s] env =
      { calls := [ApiCall.ls, ApiCall.delete c.cn], exitCode := 0,
        closed := true } := by
  simp [rmBranch, h, hy]

theorem rmBranch_found_no (env : Env) (s : String) (c : Cert)
    (h : getCertIdCn env.lsResult (some s) = some c)
    (hn : confirmAnswer env.confirmInput = false) :
    rmBranch [s] env =
      { calls := [ApiCall.ls], errs := [ErrMsg.userAbort], exitCode := 0 } := by
  simp [rmBranch, h, hn]

theorem rmBranch_not_found (env : Env) (s : String)
    (h : getCertIdCn env.lsResult (some s) = none) :
    rmBranch [s] env =
      { calls := [ApiCall.ls], errs := [ErrMsg.notFound (some s)],
        exitCode := 1 } := by
  simp [rmBranch, h]

theorem replaceBranch_found_yes (env : Env) (s cp kp : String) (c : Cert)
    (hcp : cp ≠ "") (hkp : kp ≠ "")
    (h : getCertIdCn env.lsResult (some s) = some c)
    (hy : confirmAnswer env.confirmInput = true) :
    replaceBranch (replaceArgv s cp kp) [s] env =
      { calls := [ApiCall.ls,
          ApiCall.put c.cn (env.fileContents cp) (env.fileContents kp) ""],
        reads := [cp, kp], exitCode := 0, closed := true } := by
  simp [replaceBranch, replaceArgv, strTruthy, hcp, hkp, h, hy]

theorem replaceBranch_found_no (env : Env) (s cp kp : String) (c : Cert)
    (hcp : cp ≠ "") (hkp : kp ≠ "")
    (h : getCertIdCn env.lsResult (some s) = some c)
    (hn : confirmAnswer env.confirmInput = false) :
    replaceBranch (replaceArgv s cp kp) [s] env =
      { calls := [ApiCall.ls], reads := [cp, kp],
        errs := [ErrMsg.userAbort], exitCode := 0 } := by
  simp [replaceBranch, replaceArgv, strTruthy, hcp, hkp, h, hn]

/-! ### Order instances for the `ls` sort -/

instance : IsTotal Cert (fun a b => a.cn ≤ b.cn) :=
  ⟨fun a b => le_total a.cn b.cn⟩

instance : IsTrans Cert (fun a b => a.cn ≤ b.cn) :=
  ⟨fun _ _ _ h₁ h₂ => le_trans h₁ h₂⟩

/-! ### Claim C1 -/

/-- C1 (counterexample): the claim "on every code path that completes
without throwing — success, user abort, validation failure, and not-found
resolution — the API client's `close()` is invoked before control returns"
is false: `now certs ls extra` completes without throwing (validation
failure, exit 1), yet `return exit(1)` skips the final `certs.close()`. -/
theorem ls_usage_error_skips_close :
    (run { pos := ["ls", "extra"], crt := none, key := none, ca := none,
             help := false } sampleEnv).closed = false ∧
    (run { pos := ["ls", "extra"], crt := none, key := none, ca := none,
             help := false } sampleEnv).exitCode = 1 := by
  decide

/-- C1 (amended): `certs.close()` is invoked before `run` returns exactly
on the code paths that fall through to the end of the dispatch: the
successful completion of a subcommand (no error printed and exit code 0)
and the unrecognized-subcommand path; early-return paths (validation
failure, not-found resolution, user abort, and the falsy `create` result)
skip `close()`. -/
theorem run_close_iff (a : Argv) (env : Env) :
    (run a env).closed = true ↔
      ((run a env).errs = [] ∧ (run a env).exitCode = 0) ∨
        (run a env).errs = [ErrMsg.invalidSubcommand] := by
  simp only [run, lsBranch, createBranch, renewBranch, replaceBranch,
    rmBranch, unknownBranch]
  repeat' split
  all_goals simp_all

/-! ### Claim C2 -/

/-- C2 (counterexample): invoking the command with a missing subcommand
(empty positional list after `certs`) does not terminate with exit code 1:
`main` prints the help text and exits 0 before `run` is reached. -/
theorem missing_subcommand_exits_zero :
    (mainRun { pos := [], crt := none, key := none, ca := none,
               help := false } sampleEnv).exitCode = 0 ∧
    ¬ ((mainRun { pos := [], crt := none, key := none, ca := none,
                  help := false } sampleEnv).exitCode = 1) := by
  decide

/-- C2 (amended): a missing subcommand terminates with exit code 0 (help
text shown), while an invalid (unrecognized, non-empty) subcommand
terminates with exit code 1. -/
theorem mainRun_missing_vs_invalid (env : Env) (cmd : String)
    (hcmd : cmd ∉ ["ls", "list", "create", "renew", "replace", "rm", "remove"])
    (hne : cmd ≠ "") :
    (mainRun { pos := [], crt := none, key := none, ca := none,
               help := false } env).exitCode = 0 ∧
    (mainRun { pos := [cmd], crt := none, key := none, ca := none,
               help := false } env).exitCode = 1 := by
  constructor
  · simp [mainRun, strTruthy]
  · simp only [List.mem_cons, List.mem_singleton, not_or] at hcmd
    obtain ⟨h1, h2, h3, h4, h5, h6, h7⟩ := hcmd
    simp [mainRun, run, strTruthy, hne, h1, h2, h3, h4, h5, h6, h7,
      unknownBranch]

/-- C2 (witness): the amended claim instantiated at the unrecognized
subcommand `bogus`. -/
theorem mainRun_missing_vs_invalid_witness :
    (mainRun { pos := [], crt := none, key := none, ca := none,
               help := false } sampleEnv).exitCode = 0 ∧
    (mainRun { pos := ["bogus"], crt := none, key := none, ca := none,
               help := false } sampleEnv).exitCode = 1 :=
  mainRun_missing_vs_invalid sampleEnv "bogus" (by decide) (by decide)

/-! ### Claim C3 -/

/-- C3: for every certificate list returned by the API, the rows of the
table printed by `ls` are sorted ascending by `cn` under lexicographic
comparison and are a permutation of the returned list, regardless of the
order in which the API returned it. -/
theorem ls_rows_sorted (env : Env) :
    List.Sorted (fun a b : Cert => a.cn ≤ b.cn) (run lsArgv env).rows ∧
      ((run lsArgv env).rows).Perm env.lsResult := by
  rw [run_lsArgv]
  unfold lsBranch
  cases hl : env.lsResult with
  | nil => simp [hl]
  | cons x xs =>
      simp only [hl, List.length_nil, ne_eq, not_true_eq_false,
        if_false, List.length_cons]
      constructor
      · simpa [sortCerts] using
          List.sorted_insertionSort (fun a b : Cert => a.cn ≤ b.cn) (x :: xs)
      · simpa [sortCerts] using
          List.perm_insertionSort (fun a b : Cert => a.cn ≤ b.cn) (x :: xs)

/-! ### Claim C4 -/

/-- C4: for every confirmation prompt (renew, replace, rm) with a resolvable
certificate: an input line equal to `"y"` after trimming and lowercasing
proceeds with the mutating API call exactly once (the call list is exactly
`ls` followed by the one mutating call); any other input line aborts with
exit code 0, prints the user-abort error, and makes no mutating API call. -/
theorem confirmation_gates_mutation (env : Env) (s cp kp : String) (c : Cert)
    (hfind : getCertIdCn env.lsResult (some s) = some c)
    (hcp : cp ≠ "") (hkp : kp ≠ "") :
    (jsToLower (jsTrim env.confirmInput) = "y" →
      (run (renewArgv s) env).calls = [ApiCall.ls, ApiCall.renew c.cn] ∧
      (run (renewArgv s) env).exitCode = 0 ∧
      (run (replaceArgv s cp kp) env).calls =
        [ApiCall.ls,
          ApiCall.put c.cn (env.fileContents cp) (env.fileContents kp) ""] ∧
      (run (replaceArgv s cp kp) env).exitCode = 0 ∧
      (run (rmArgv s) env).calls = [ApiCall.ls, ApiCall.delete c.cn] ∧
      (run (rmArgv s) env).exitCode = 0) ∧
    (jsToLower (jsTrim env.confirmInput) ≠ "y" →
      (run (renewArgv s) env).calls = [ApiCall.ls] ∧
      (run (renewArgv s) env).errs = [ErrMsg.userAbort] ∧
      (run (renewArgv s) env).exitCode = 0 ∧
      (run (replaceArgv s cp kp) env).calls = [ApiCall.ls] ∧
      (run (replaceArgv s cp kp) env).errs = [ErrMsg.userAbort] ∧
      (run (replaceArgv s cp kp) env).exitCode = 0 ∧
      (run (rmArgv s) env).calls = [ApiCall.ls] ∧
      (run (rmArgv s) env).errs = [ErrMsg.userAbort] ∧
      (run (rmArgv s) env).exitCode = 0) := by
  constructor
  · intro hy
    have hy' : confirmAnswer env.confirmInput = true := by
      simp [confirmAnswer, hy]
    rw [run_renewArgv, run_replaceArgv, run_rmArgv,
      renewBranch_found_yes env s c hfind hy',
      replaceBranch_found_yes env s cp kp c hcp hkp hfind hy',
      rmBranch_found_yes env s c hfind hy']
    exact ⟨rfl, rfl, rfl, rfl, rfl, rfl⟩
  · intro hn
    have hn' : confirmAnswer env.confirmInput = false := by
      unfold confirmAnswer
      exact beq_eq_false_iff_ne.mpr hn
    rw [run_renewArgv, run_replaceArgv, run_rmArgv,
      renewBranch_found_no env s c hfind hn',
      replaceBranch_found_no env s cp kp c hcp hkp hfind hn',
      rmBranch_found_no env s c hfind hn']
    exact ⟨rfl, rfl, rfl, rfl, rfl, rfl, rfl, rfl, rfl⟩

/-- C4 (witness): `rm` answered with the line `"no"` aborts with exit code
0 and issues no `delete` call. -/
theorem confirmation_gates_mutation_witness :
    (run (rmArgv "cert_W8Qrd3sIgNAbRB9WdBpX7dAH") sampleEnv).calls =
        [ApiCall.ls] ∧
    (run (rmArgv "cert_W8Qrd3sIgNAbRB9WdBpX7dAH") sampleEnv).errs =
        [ErrMsg.userAbort] ∧
    (run (rmArgv "cert_W8Qrd3sIgNAbRB9WdBpX7dAH") sampleEnv).exitCode = 0 := by
  have h := confirmation_gates_mutation sampleEnv
    "cert_W8Qrd3sIgNAbRB9WdBpX7dAH" "d.crt" "d.key" sampleCert
    (by decide) (by decide) (by decide)
  obtain ⟨-, -, -, -, -, -, g1, g2, g3⟩ := h.2 (by decide)
  exact ⟨g1, g2, g3⟩

/-! ### Claim C5 -/

/-- C5: `rm <idOrCn>` resolves against the fetched list; when no
certificate matches the argument on either `uid` or `cn`, the command exits
1 with the scoped not-found error, after the single `ls` call and with no
`delete` call ever performed. -/
theorem rm_unknown_id (env : Env) (s : String)
    (h : ∀ c ∈ env.lsResult, c.uid ≠ s ∧ c.cn ≠ s) :
    (run (rmArgv s) env).exitCode = 1 ∧
    (run (rmArgv s) env).calls = [ApiCall.ls] ∧
    (run (rmArgv s) env).errs = [ErrMsg.notFound (some s)] ∧
    ∀ cn, ApiCall.delete cn ∉ (run (rmArgv s) env).calls := by
  have hfind : getCertIdCn env.lsResult (some s) = none := by
    unfold getCertIdCn
    rw [List.find?_eq_none]
    intro c hc
    simp [(h c hc).1, (h c hc).2]
  rw [run_rmArgv, rmBranch_not_found env s hfind]
  refine ⟨rfl, rfl, rfl, ?_⟩
  intro cn
  simp

/-- C5 (witness): removing an id that matches no certificate in the sample
environment exits 1 without a `delete` call. -/
theorem rm_unknown_id_witness :
    (run (rmArgv "nope.example.com") sampleEnv).exitCode = 1 ∧
    (run (rmArgv "nope.example.com") sampleEnv).calls = [ApiCall.ls] ∧
    (run (rmArgv "nope.example.com") sampleEnv).errs =
        [ErrMsg.notFound (some "nope.example.com")] ∧
    ∀ cn, ApiCall.delete cn ∉
        (run (rmArgv "nope.example.com") sampleEnv).calls :=
  rm_unknown_id sampleEnv "nope.example.com" (by decide)

/-! ### Claim C6 -/

/-- C6: `create` requires exactly one positional argument, with or without
the certificate flags: any invocation with zero or two-or-more positional
arguments exits 1 without any API call (`create` or `put`) and without any
file read. -/
theorem create_requires_one_arg (env : Env) (args : List String)
    (crt key ca : Option String) (h : args.length ≠ 1) :
    (run { pos := ("create" :: args), crt := crt, key := key, ca := ca,
             help := false } env).exitCode = 1 ∧
    (run { pos := ("create" :: args), crt := crt, key := key, ca := ca,
             help := false } env).calls = [] ∧
    (run { pos := ("create" :: args), crt := crt, key := key, ca := ca,
             help := false } env).reads = [] := by
  rw [run_create_pos]
  unfold createBranch
  simp [h]

/-- C6 (witness): `now certs create` with zero positional arguments exits
1 with no API call and no file read. -/
theorem create_requires_one_arg_witness :
    (run { pos := ["create"], crt := none, key := none, ca := none,
             help := false } sampleEnv).exitCode = 1 ∧
    (run { pos := ["create"], crt := none, key := none, ca := none,
             help := false } sampleEnv).calls = [] ∧
    (run { pos := ["create"], crt := none, key := none, ca := none,
             help := false } sampleEnv).reads = [] :=
  create_requires_one_arg sampleEnv [] none none none (by decide)

/-! ### Claim C7 -/

/-- C7: any invocation of `create` or `replace` that supplies exactly one
of `--crt` and `--key` (the other absent or empty) fails validation with
exit code 1, reads no file, and makes no API call. -/
theorem partial_cert_flags_fail (env : Env) (args : List String)
    (crt key ca : Option String) (h : strTruthy crt ≠ strTruthy key) :
    ((run { pos := ("create" :: args), crt := crt, key := key, ca := ca,
              help := false } env).exitCode = 1 ∧
      (run { pos := ("create" :: args), crt := crt, key := key, ca := ca,
              help := false } env).calls = [] ∧
      (run { pos := ("create" :: args), crt := crt, key := key, ca := ca,
              help := false } env).reads = []) ∧
    ((run { pos := ("replace" :: args), crt := crt, key := key, ca := ca,
              help := false } env).exitCode = 1 ∧
      (run { pos := ("replace" :: args), crt := crt, key := key, ca := ca,
              help := false } env).calls = [] ∧
      (run { pos := ("replace" :: args), crt := crt, key := key, ca := ca,
              help := false } env).reads = []) := by
  rw [run_create_pos, run_replace_pos]
  unfold createBranch replaceBranch
  cases hc : strTruthy crt <;> cases hk : strTruthy key <;>
    by_cases hl : args.length = 1 <;> simp_all

/-- C7 (witness): `--crt` supplied without `--key` fails both `create` and
`replace` with exit 1, no file read, and no API call. -/
theorem partial_cert_flags_fail_witness :
    ((run { pos := ["create", "x.com"], crt := some "only.crt", key := none,
              ca := none, help := false } sampleEnv).exitCode = 1 ∧
      (run { pos := ["create", "x.com"], crt := some "only.crt", key := none,
              ca := none, help := false } sampleEnv).calls = [] ∧
      (run { pos := ["create", "x.com"], crt := some "only.crt", key := none,
              ca := none, help := false } sampleEnv).reads = []) ∧
    ((run { pos := ["replace", "x.com"], crt := some "only.crt", key := none,
              ca := none, help := false } sampleEnv).exitCode = 1 ∧
      (run { pos := ["replace", "x.com"], crt := some "only.crt", key := none,
              ca := none, help := false } sampleEnv).calls = [] ∧
      (run { pos := ["replace", "x.com"], crt := some "only.crt", key := none,
              ca := none, help := false } sampleEnv).reads = []) :=
  partial_cert_flags_fail sampleEnv ["x.com"] (some "only.crt") none none
    (by decide)

/-! ### Claim C8 -/

/-- C8: when `certs.create(cn)` returns a falsy result (the "already
issued" signal), `create <cn>` exits 1 without printing any further error
text of its own, after the single `create` call and without reaching
`close()`. -/
theorem create_already_issued (env : Env) (s : String)
    (h : env.createResult = none) :
    (run (createArgv s) env).exitCode = 1 ∧
    (run (createArgv s) env).errs = [] ∧
    (run (createArgv s) env).calls = [ApiCall.create s] ∧
    (run (createArgv s) env).closed = false := by
  rw [run_createArgv]
  unfold createBranch
  simp [createArgv, strTruthy, h]

/-- C8 (witness): the falsy `create` result on the sample environment. -/
theorem create_already_issued_witness :
    (run (createArgv "a.com")
        { sampleEnv with createResult := none }).exitCode = 1 ∧
    (run (createArgv "a.com")
        { sampleEnv with createResult := none }).errs = [] ∧
    (run (createArgv "a.com")
        { sampleEnv with createResult := none }).calls =
      [ApiCall.create "a.com"] ∧
    (run (createArgv "a.com")
        { sampleEnv with createResult := none }).closed = false :=
  create_already_issued { sampleEnv with createResult := none } "a.com" rfl

/-! ### Claim C9 -/

/-- C9: `replace` performs no arity check: with `--crt` and `--key`
supplied but zero positional arguments, both certificate files are still
read and the `ls` API call is still issued, after which resolution of the
`undefined` argument fails with the not-found error and exit code 1 rather
than with a usage error. -/
theorem replace_no_arity_check (env : Env) (cp kp : String)
    (hcp : cp ≠ "") (hkp : kp ≠ "") :
    (run { pos := ["replace"], crt := some cp, key := some kp, ca := none,
             help := false } env).reads = [cp, kp] ∧
    (run { pos := ["replace"], crt := some cp, key := some kp, ca := none,
             help := false } env).calls = [ApiCall.ls] ∧
    (run { pos := ["replace"], crt := some cp, key := some kp, ca := none,
             help := false } env).errs = [ErrMsg.notFound none] ∧
    (run { pos := ["replace"], crt := some cp, key := some kp, ca := none,
             help := false } env).exitCode = 1 := by
  rw [run_replace_pos]
  unfold replaceBranch
  have hfind : getCertIdCn env.lsResult none = none := by
    simp [getCertIdCn, List.find?_eq_none]
  simp [strTruthy, hcp, hkp, hfind]

/-- C9 (witness): `now certs replace --crt d.crt --key d.key` with no
positional argument on the sample environment. -/
theorem replace_no_arity_check_witness :
    (run { pos := ["replace"], crt := some "d.crt", key := some "d.key",
             ca := none, help := false } sampleEnv).reads =
        ["d.crt", "d.key"] ∧
    (run { pos := ["replace"], crt := some "d.crt", key := some "d.key",
             ca := none, help := false } sampleEnv).calls = [ApiCall.ls] ∧
    (run { pos := ["replace"], crt := some "d.crt", key := some "d.key",
             ca := none, help := false } sampleEnv).errs =
        [ErrMsg.notFound none] ∧
    (run { pos := ["replace"], crt := some "d.crt", key := some "d.key",
             ca := none, help := false } sampleEnv).exitCode = 1 :=
  replace_no_arity_check sampleEnv "d.crt" "d.key" (by decide) (by decide)

/-! ### Claim C10 -/

/-- C10: every successful `renew`, `replace`, or `rm` passes the resolved
certificate's `cn` to the mutating API call (`renew`, `put`, `delete`),
never the raw user-supplied argument: the call lists are exactly `ls`
followed by the mutating call on `c.cn`, where `c` is the certificate
resolved from the argument (which may be a `uid`). -/
theorem mutation_uses_resolved_cn (env : Env) (s cp kp : String) (c : Cert)
    (hfind : getCertIdCn env.lsResult (some s) = some c)
    (hy : confirmAnswer env.confirmInput = true)
    (hcp : cp ≠ "") (hkp : kp ≠ "") :
    (run (renewArgv s) env).calls = [ApiCall.ls, ApiCall.renew c.cn] ∧
    (run (replaceArgv s cp kp) env).calls =
      [ApiCall.ls,
        ApiCall.put c.cn (env.fileContents cp) (env.fileContents kp) ""] ∧
    (run (rmArgv s) env).calls = [ApiCall.ls, ApiCall.delete c.cn] := by
  rw [run_renewArgv, run_replaceArgv, run_rmArgv,
    renewBranch_found_yes env s c hfind hy,
    replaceBranch_found_yes env s cp kp c hcp hkp hfind hy,
    rmBranch_found_yes env s c hfind hy]
  exact ⟨rfl, rfl, rfl⟩

/-- C10 (witness): `rm` invoked with the sample certificate's `uid` issues
the `delete` call with its `cn` (`a.com`), not with the `uid`. -/
theorem mutation_uses_resolved_cn_witness :
    (run (rmArgv "cert_W8Qrd3sIgNAbRB9WdBpX7dAH")
        { sampleEnv with confirmInput := "y" }).calls =
      [ApiCall.ls, ApiCall.delete "a.com"] := by
  have h := mutation_uses_resolved_cn { sampleEnv with confirmInput := "y" }
    "cert_W8Qrd3sIgNAbRB9WdBpX7dAH" "d.crt" "d.key" sampleCert
    (by decide) (by decide) (by decide) (by decide)
  exact h.2.2
